import Mathlib

/-!
Formal verification of the dimensional scan engine of the `cc-plugin-wcrp`
quality-control plugin suite (directory `checks/data_plausibility_checks/`).

The Python code operates on numpy arrays.  We embed a (rectangular,
row-major) numpy array of element type `α` as its shape together with a
total valuation on integer index tuples; an index tuple is a `List Nat`.
Real-valued data is modelled with `ℚ` where the code only performs field
arithmetic and comparisons, and with `ℝ` where `np.std` (a square root)
is involved.  Exceptions raised by the Python code are modelled with
`Except String`.

The file is organised as definitions first (the shallow embedding of the
Python sources, function by function), then the theorems about them.
-/

deriving instance DecidableEq for Except

namespace WcrpData

/-- Python `str.lower()`, character by character (kept reducible for
evaluation, unlike `String.toLower`). -/
def pyLower (s : String) : String := ⟨s.data.map Char.toLower⟩

/-! ## Definitions: the numpy array model -/

/-- A numpy `ndarray` with element type `α`: a shape (list of dimension
sizes, row-major) together with a valuation of every index tuple.  Index
tuples outside the shape are junk; the functions below never consult
them.  A numpy *scalar* (the result of indexing an array with a full
tuple of integers) is an `Arr` with shape `[]`. -/
structure Arr (α : Type) where
  shape : List Nat
  val : List Nat → α

/-- `ndarray.ndim`: the number of dimensions. -/
def Arr.ndim {α : Type} (a : Arr α) : Nat := a.shape.length

/-- `ndarray.size`: the number of elements (product of the shape). -/
def arrSize {α : Type} (a : Arr α) : Nat := a.shape.prod

/-- `np.ndindex(*shape)`: all index tuples of a shape in C (row-major)
order, the order in which numpy iterates and in which `np.argwhere`
lists coordinates. -/
def ndindex : List Nat → List (List Nat)
  | [] => [[]]
  | n :: rest => (List.range n).flatMap (fun i => (ndindex rest).map (i :: ·))

/-- `ndarray.flat`: the elements of an array in C order.
`(elems a).headD d` is `a.flat[0]` (for nonempty `a`). -/
def elems {α : Type} (a : Arr α) : List α := (ndindex a.shape).map a.val

/-! ## Definitions: slicing

`check_variable_conditions` indexes the data with a tuple holding
`slice(None)` (modelled `none`) for the dimensions kept as full ranges
and an integer (modelled `some i`) for the dimensions being iterated. -/

/-- Shape of `data[sel]` for a selector mixing integers and full
slices: an integer selection removes its dimension, `slice(None)` keeps
it. -/
def sliceShape : List (Option Nat) → List Nat → List Nat
  | some _ :: sel, _ :: sh => sliceShape sel sh
  | none :: sel, d :: sh => d :: sliceShape sel sh
  | _, _ => []

/-- Translate an index tuple of the sliced array back to an index tuple
of the original array: integer selections are inserted, full-range
positions consume the next index of the sliced tuple. -/
def mergeIdx : List (Option Nat) → List Nat → List Nat
  | [], ix => ix
  | some i :: sel, ix => i :: mergeIdx sel ix
  | none :: _, [] => []
  | none :: sel, j :: ix => j :: mergeIdx sel ix

/-- numpy raises `IndexError` when an integer selection is out of range
or the selector rank does not match the array rank; `selOk` is the
condition under which `data[sel]` succeeds. -/
def selOk : List (Option Nat) → List Nat → Bool
  | [], [] => true
  | some i :: sel, d :: sh => i < d && selOk sel sh
  | none :: sel, _ :: sh => selOk sel sh
  | _, _ => false

/-- `data[sel]`: the sliced array (total; the `IndexError` guard is
`selOk`). -/
def sliceArr {α : Type} (a : Arr α) (sel : List (Option Nat)) : Arr α :=
  { shape := sliceShape sel a.shape, val := fun ix => a.val (mergeIdx sel ix) }

/-! ## Definitions: the scan engine (`utils/data.py`, `check_variable_conditions`)

The Python check function may return (after the tuple destructuring at
lines 65–70 of `utils/data.py`) any Python value as `result`; the scan
dispatches on its runtime type.  We model the type tags that the
dispatch distinguishes. -/

/-- The `result` part of a check-function return value, as inspected by
the `isinstance` dispatch of `check_variable_conditions`:
`pybool` is a Python `bool`; `pyboolArr` a numpy array of dtype `bool`;
`pyint` a Python `int` or `np.integer`; `pyfloat` a Python `float` or
numpy floating scalar (which `isinstance(result, (int, np.integer))`
does **not** match); `pyother` any other value (string, `None`, a float
array, a tuple of the wrong arity, ...). -/
inductive PyResult where
  | pybool (b : Bool)
  | pyboolArr (mask : Arr Bool)
  | pyint (n : Int)
  | pyfloat (x : ℚ)
  | pyother

/-- The `scores` component of a 3-tuple return: an indexable array or a
bare scalar (lines 88–94 of `utils/data.py`). -/
inductive PyScores where
  | arr (a : Arr ℚ)
  | scalar (x : ℚ)

/-- A check-function return value after the destructuring of lines
65–70: a bare value has `values = none` and `scores = none`; a 3-tuple
`(result, values, scores)` carries the other two components. -/
structure CheckOutput where
  result : PyResult
  values : Option (Arr ℚ)
  scores : Option PyScores

/-- One element of the scan's `results` list.  The Python list is
heterogeneous: the boolean branch appends the raw inner index tuple,
the mask branch appends `(coords, value, score)` and the integer branch
appends `(coords, value)`. -/
inductive ScanRecord where
  | idxOnly (indices : List Nat)
  | maskCell (coords : List Nat) (value : ℚ) (score : Option ℚ)
  | scalar (coords : List Nat) (value : ℚ)
deriving DecidableEq

/-- `combo + indices` when an outer-scan combo is supplied, bare
`indices` otherwise. -/
def applyCombo (combo : Option (List Nat)) (indices : List Nat) : List Nat :=
  match combo with
  | some c => c ++ indices
  | none => indices

/-- `np.argwhere(mask)`: the coordinates of the true cells, in C order. -/
def argwhere (m : Arr Bool) : List (List Nat) :=
  (ndindex m.shape).filter (fun ix => m.val ix)

/-- `a[tuple(coord)]` for a full integer index: `IndexError` when the
coordinate does not fit the shape. -/
def getAt {α : Type} (a : Arr α) (ix : List Nat) : Except String α :=
  if selOk (ix.map some) a.shape then .ok (a.val ix) else .error "IndexError"

/-- Lines 88–94: `score` is `None` when `scores` is `None`, an indexed
element when `scores` is an array, and the scalar itself otherwise. -/
def scoreAt : Option PyScores → List Nat → Except String (Option ℚ)
  | none, _ => .ok none
  | some (.arr sc), coord => (getAt sc coord).map some
  | some (.scalar q), _ => .ok (some q)

/-- Lines 77–96, the loop over `np.argwhere(result)`: one
`(coords, value, score)` record per true cell.  A missing `values`
component makes `float(None)` raise `TypeError`. -/
def maskRecords (values : Option (Arr ℚ)) (scores : Option PyScores)
    (indices : List Nat) (combo : Option (List Nat)) :
    List (List Nat) → Except String (List ScanRecord)
  | [] => .ok []
  | coord :: rest =>
    match values with
    | none => .error "TypeError: float() argument is None"
    | some vals =>
      match getAt vals coord with
      | .error e => .error e
      | .ok v =>
        match scoreAt scores coord with
        | .error e => .error e
        | .ok s =>
          match maskRecords values scores indices combo rest with
          | .error e => .error e
          | .ok tl => .ok (ScanRecord.maskCell (applyCombo combo indices ++ coord) v s :: tl)

/-- Lines 64–103: normalisation of one check-function output.  The
`isinstance` chain handles `bool`, boolean arrays and `int`/`np.integer`
scalars; every other `result` — including `float` scalars — matches no
branch, so nothing is appended and nothing is raised. -/
def normalizeOutput (out : CheckOutput) (indices : List Nat)
    (combo : Option (List Nat)) : Except String (List ScanRecord) :=
  match out.result with
  | .pybool b => .ok (if b then [ScanRecord.idxOnly indices] else [])
  | .pyboolArr m => maskRecords out.values out.scores indices combo (argwhere m)
  | .pyint n => .ok [ScanRecord.scalar (applyCombo combo indices) (n : ℚ)]
  | .pyfloat _ => .ok []
  | .pyother => .ok []

/-- Line 52: `[var_dim_names.index(dim) for dim in check_dims]`;
`tuple.index` raises `ValueError` on a missing name. -/
def resolveDims (varDimNames : List String) : List String → Except String (List Nat)
  | [] => .ok []
  | d :: rest =>
    match varDimNames.findIdx? (· == d) with
    | none => .error ("ValueError: " ++ d ++ " is not in tuple")
    | some i =>
      match resolveDims varDimNames rest with
      | .error e => .error e
      | .ok tl => .ok (i :: tl)

/-- Line 55: `[variable.shape[i] for i in check_dim_indices]`. -/
def shapesOf {α : Type} (a : Arr α) : List Nat → Except String (List Nat)
  | [] => .ok []
  | i :: rest =>
    match a.shape[i]? with
    | none => .error "IndexError: tuple index out of range"
    | some d =>
      match shapesOf a rest with
      | .error e => .error e
      | .ok tl => .ok (d :: tl)

/-- Lines 58–60: start from `[slice(None)] * variable.ndim` and set the
iterated positions to the current integer indices. -/
def buildFullSlice (ndim : Nat) (checkDimIndices indices : List Nat) :
    List (Option Nat) :=
  (checkDimIndices.zip indices).foldl (fun sel p => sel.set p.1 (some p.2))
    (List.replicate ndim none)

/-- One iteration of the loop at lines 56–103: slice, apply the check
function, normalise its output. -/
def scanStep {π : Type} (data : Arr ℚ) (checkDimIndices : List Nat)
    (checkFunc : Arr ℚ → Option π → CheckOutput) (parameters : Option π)
    (combo : Option (List Nat)) (indices : List Nat) :
    Except String (List ScanRecord) :=
  let fullSlice := buildFullSlice data.ndim checkDimIndices indices
  if selOk fullSlice data.shape then
    normalizeOutput (checkFunc (sliceArr data fullSlice) parameters) indices combo
  else .error "IndexError"

/-- The loop over `np.ndindex(*index_shapes)`, accumulating the records
of each step in order; an exception aborts the scan. -/
def scanSteps {π : Type} (data : Arr ℚ) (checkDimIndices : List Nat)
    (checkFunc : Arr ℚ → Option π → CheckOutput) (parameters : Option π)
    (combo : Option (List Nat)) : List (List Nat) → Except String (List ScanRecord)
  | [] => .ok []
  | ixs :: rest =>
    match scanStep data checkDimIndices checkFunc parameters combo ixs with
    | .error e => .error e
    | .ok rs =>
      match scanSteps data checkDimIndices checkFunc parameters combo rest with
      | .error e => .error e
      | .ok tl => .ok (rs ++ tl)

/-- `check_variable_conditions(dataset, variable_name, check_dims,
check_func, data, parameters, combo)` (`utils/data.py`, lines 40–104).
`varDimNames` stands for `dataset.variables[variable_name].dimensions`
and `data` for the array being scanned (the variable's full array when
the Python argument `data` is `None`).  The Python `parameters is None`
test selects between `check_func(slice, parameters)` and
`check_func(slice)`; both are modelled by passing the `Option`. -/
def check_variable_conditions {π : Type} (varDimNames : List String)
    (data : Arr ℚ) (checkDims : List String)
    (checkFunc : Arr ℚ → Option π → CheckOutput) (parameters : Option π)
    (combo : Option (List Nat)) : Except String (List ScanRecord) :=
  match resolveDims varDimNames checkDims with
  | .error e => .error e
  | .ok checkDimIndices =>
    match shapesOf data checkDimIndices with
    | .error e => .error e
    | .ok indexShapes =>
      scanSteps data checkDimIndices checkFunc parameters combo (ndindex indexShapes)

/-! ## Definitions: `check_constant.py` -/

/-- `check_all_constant(data_slice)` (`check_constant.py`, lines 20–28).
`np.isscalar` is true exactly for the numpy scalars produced by
full-integer indexing (shape `[]` here); an empty array yields `False`;
otherwise `np.all(data_slice == data_slice.flat[0])`. -/
def check_all_constant (a : Arr ℚ) : Bool :=
  if a.shape = [] then true
  else if arrSize a = 0 then false
  else (elems a).all (fun q => q == (elems a).headD 0)

/-! ## Definitions: `check_spatial_statistical_outliers.py`, Z-score part

`np.mean` and `np.std` (with the default `ddof = 0`) on the real-valued
slice; `np.std` is the square root of the mean squared deviation, hence
the embedding uses `ℝ` and `Real.sqrt`. -/

/-- `np.sum` over all elements. -/
noncomputable def arrSum (a : Arr ℝ) : ℝ := (elems a).sum

/-- `np.mean(data_slice)`. -/
noncomputable def npMean (a : Arr ℝ) : ℝ := arrSum a / (arrSize a : ℝ)

/-- The mean squared deviation (the square of `np.std` with `ddof = 0`). -/
noncomputable def npVar (a : Arr ℝ) : ℝ :=
  arrSum { shape := a.shape, val := fun ix => (a.val ix - npMean a) ^ 2 } / (arrSize a : ℝ)

/-- `np.std(data_slice)`. -/
noncomputable def npStd (a : Arr ℝ) : ℝ := Real.sqrt (npVar a)

open Classical in
/-- `calculate_zscore(data_slice)` (lines 44–50): if `std == 0` return
`np.zeros_like(data_slice)`, else `(data_slice - mean) / std`. -/
noncomputable def calculate_zscore (a : Arr ℝ) : Arr ℝ :=
  if npStd a = 0 then { shape := a.shape, val := fun _ => 0 }
  else { shape := a.shape, val := fun ix => (a.val ix - npMean a) / npStd a }

/-- `is_outlier(zscore, threshold)` (lines 52–54): the boolean mask
`np.abs(zscore) > threshold`, cell by cell. -/
def is_outlier (zscore : Arr ℝ) (threshold : ℝ) : Arr Prop :=
  { shape := zscore.shape, val := fun ix => |zscore.val ix| > threshold }

/-! ## Definitions: `check_spatial_statistical_outliers.py`, reporting

The result container is the external `compliance_checker.base.TestCtx`
(extended by `ExtendedTestCtx` in `utils/auxiliar.py`): counters
`score`/`out_of` with `add_pass` incrementing both and
`add_failure` incrementing only `out_of` while appending its message;
a result passes when `score == out_of` (an untouched context is a
vacuous pass).  `ExtendedTestCtx` adds a mutable `coordinates` list. -/

structure Coordinate where
  name : String
  indices : List (List Nat)
  values : List String
  result : Bool

structure Ctx where
  score : Nat
  out_of : Nat
  messages : List String
  coordinates : List Coordinate

/-- `TestCtx.add_failure(message)`: one more assertion, not satisfied. -/
def add_failure (ctx : Ctx) (message : String) : Ctx :=
  { ctx with out_of := ctx.out_of + 1, messages := ctx.messages ++ [message] }

/-- `TestCtx.add_pass()`: one more assertion, satisfied. -/
def add_pass (ctx : Ctx) : Ctx :=
  { ctx with score := ctx.score + 1, out_of := ctx.out_of + 1 }

/-- A result passes when the score reaches `out_of`. -/
def passed (ctx : Ctx) : Bool := ctx.score == ctx.out_of

/-- Rendering of the optional score in the `f"{value},{parameter}:{score}"`
string of `extract_coordinates_from_indices`. -/
def scoreStr : Option ℚ → String
  | none => "None"
  | some q => reprStr q

/-- `extract_coordinates_from_indices(flattened, ctx, parameter)`
(lines 75–92): overwrite `ctx.coordinates` with one `Coordinate` per
`(coord, value, score)` triple and report whether any coordinate was
seen.  The Python function mutates and returns the same `ctx` object;
the embedding returns the updated context together with `detected`. -/
def extract_coordinates_from_indices (flattened : List (List Nat × ℚ × Option ℚ))
    (ctx : Ctx) (parameter : String) : Ctx × Bool :=
  let detected := !(flattened.map (·.1)).isEmpty
  ({ ctx with coordinates := flattened.map (fun t =>
      { name := pyLower parameter, indices := [t.1],
        values := [reprStr t.2.1 ++ "," ++ parameter ++ ":" ++ scoreStr t.2.2],
        result := true }) }, detected)

/-- The result assembly of `check_spatial_statistical_outliers`
(lines 112–119 create the fresh context; lines 160–184 build the
decision), for a scan that completed without raising.  `flattenedMin`
and `flattenedMax` are the flattened anomaly lists of the minimum and
maximum time-series scans; `flattened = flattened_min + flattened_max`
is the accumulated anomaly list.  Python aliasing is preserved:
`ctx_min`/`ctx_max` are the same object as `ctx`, so
`ctx.messages.extend(ctx_min.messages)` doubles the message list, and
the file dumps are side effects outside the model. -/
def check_spatial_statistical_outliers
    (flattenedMin flattenedMax : List (List Nat × ℚ × Option ℚ))
    (parameter : String) : Ctx :=
  let ctx0 : Ctx := { score := 0, out_of := 0, messages := [], coordinates := [] }
  let flattened := flattenedMin ++ flattenedMax
  let p1 := extract_coordinates_from_indices flattened ctx0 parameter
  let ctx1 := p1.1
  if p1.2 then
    let ctx2 := add_failure ctx1
      ("Outliers detected: " ++ toString ctx1.coordinates.length ++ " points.")
    let p2 := extract_coordinates_from_indices flattenedMin ctx2 parameter
    let ctx3 := p2.1
    let ctx4 :=
      if p2.2 then
        let c := { ctx3 with messages := ctx3.messages ++
          ["Outliers detected in minimum time series: " ++
            toString ctx3.coordinates.length ++ " points."] }
        { c with messages := c.messages ++ c.messages }
      else ctx3
    let p3 := extract_coordinates_from_indices flattenedMax ctx4 parameter
    let ctx5 := p3.1
    let ctx6 :=
      if p3.2 then
        let c := { ctx5 with messages := ctx5.messages ++
          ["Outliers detected in maximum time series: " ++
            toString ctx5.coordinates.length ++ " points."] }
        { c with messages := c.messages ++ c.messages }
      else ctx5
    let ctx7 := { ctx6 with messages := ctx6.messages ++
      ["No outliers detected in the dataset based on " ++ parameter ++ "."] }
    add_pass ctx7
  else ctx1

/-! ## Definitions: `check_fill_missing.py` -/

/-- `detect_changes_in_values(coordinate_values)` (lines 20–51):
`np.diff` of the value sequence, the indices of the non-zero
differences shifted by one, the pairs at those indices, with the first
pair prepended when its value differs from the second.  The `int(val)`
conversion of line 33 is the identity here because the values are
already integers (counts). -/
def detect_changes_in_values (coordinate_values : List (List Nat × Int)) :
    List (List Nat × Int) :=
  if coordinate_values.isEmpty then []
  else
    let values := coordinate_values.map (·.2)
    let diffValues := (List.range (values.length - 1)).map
      (fun i => values.getD (i + 1) 0 - values.getD i 0)
    let nonZeroDiffIndices := ((List.range diffValues.length).filter
      (fun i => diffValues.getD i 0 != 0)).map (· + 1)
    let detected := nonZeroDiffIndices.map (fun i => coordinate_values.getD i ([], 0))
    if 1 < values.length ∧ values.getD 0 0 ≠ values.getD 1 0 then
      coordinate_values.getD 0 ([], 0) :: detected
    else detected

/-- The specification-side description of `detect_changes_in_values`:
the pairs at index `0` when its count differs from the count at index
`1`, followed by the pairs at every index `i ≥ 1` whose count differs
from the count at `i - 1`. -/
def spec_change_pairs (cv : List (List Nat × Int)) : List (List Nat × Int) :=
  let values := cv.map (·.2)
  (if 1 < cv.length ∧ values.getD 0 0 ≠ values.getD 1 0 then [cv.getD 0 ([], 0)] else [])
    ++ ((List.range cv.length).filter
        (fun i => decide (1 ≤ i) && (values.getD i 0 != values.getD (i - 1) 0))).map
        (fun i => cv.getD i ([], 0))

/-- `load_value_to_check(var_obj, parameter, ctx)` (`check_fill_missing.py`,
lines 62–77).  `fillValue`/`missingValue` stand for
`getattr(var_obj, "_FillValue", None)` and
`getattr(var_obj, "missing_value", None)`; the returned pair is
`parameters_func` as `(val, name)` plus the context messages. -/
def load_value_to_check (fillValue missingValue : Option ℚ) (parameter : String)
    (messages : List String) : Except String ((Option ℚ × String) × List String) :=
  let messages :=
    if fillValue.isSome ∧ missingValue.isSome ∧ fillValue = missingValue then
      messages ++ ["Warning: _FillValue and missing_value are the same."]
    else messages
  if parameter = "FillValue" then
    if fillValue = none then
      .error "ValueError: FillValue not found in the variable attributes."
    else .ok ((fillValue, "FillValue"), messages)
  else if parameter = "MissingValue" then
    .ok ((missingValue, "MissingValue"), messages)
  else .error ("ValueError: Invalid parameter " ++ parameter)

/-! ## Definitions: `detect_physically_impossible_outlier.py`, `check_units` -/

/-- The threshold-table entry `{min, max, unit}` for one standard name. -/
structure Thresholds where
  min : ℚ
  max : ℚ
  unit : String
deriving DecidableEq

def celsiusUnits : List String :=
  ["C", "celsius", "Celsius", "c", "°C", "degC", "degrees_Celsius", "degreesC",
    "degrees_C", "degrees_Celsius"]

def kelvinUnits : List String :=
  ["Kelvin", "K", "kel", "degK", "degrees_Kelvin", "degreesK", "degrees_K",
    "degrees_Kelvin"]

def percentUnits : List String :=
  ["%", "percent", "Percent", "perc", "percentage", "Percentage"]

def fractionUnits : List String := ["l", "1", "fraction", "fractional"]

/-- `check_units(dataset, var, thresholds_values)` (lines 65–104):
when the variable's declared unit differs from the table unit, the
first matching fixed conversion is applied to the `min`/`max` pair (and
the stored unit is renamed); with no matching rule the thresholds are
returned unchanged.  `varUnits` stands for
`dataset.variables[var].units`. -/
def check_units (varUnits : String) (tv : Thresholds) : Thresholds :=
  if varUnits ≠ tv.unit then
    if varUnits ∈ celsiusUnits ∧ tv.unit ∈ kelvinUnits then
      { min := tv.min - 273.15, max := tv.max - 273.15, unit := "Celsius" }
    else if varUnits ∈ percentUnits ∧ tv.unit ∈ fractionUnits then
      { min := tv.min * 100, max := tv.max * 100, unit := "percent" }
    else if varUnits ∈ ["gr kg-1"] ∧ tv.unit ∈ fractionUnits then
      { min := tv.min * 1000, max := tv.max * 1000, unit := "gr kg-1" }
    else if varUnits ∈ ["mm", "millimeter"] ∧ tv.unit ∈ ["m"] then
      { min := tv.min * 1000, max := tv.max * 1000, unit := "mm" }
    else if varUnits ∈ ["J m**-2"] ∧ tv.unit ∈ ["W m**-2"] then
      { min := tv.min * (3600 * 24), max := tv.max * (3600 * 24),
        unit := "J m**-2 day**-1" }
    else tv
  else tv

/-! ## Definitions: `utils/dimensions.py`, `get_ds_dimensions`

The Python function builds a `dict` whose key set changes at run time:
it is initialised with keys `x`, `y`, `t`, `z`, `member`, but the
`axis == "T"` branch writes the *new* key `time`.  We model the dict as
an association list preserving insertion order, with lookups on a
missing key raising `KeyError`. -/

/-- An insertion-ordered Python dict from role names to optional
dimension names. -/
abbrev AxisDict := List (String × Option String)

/-- `d[k] = v`: update in place when the key exists, append otherwise. -/
def dictSet (d : AxisDict) (k : String) (v : Option String) : AxisDict :=
  if d.any (fun p => p.1 == k) then
    d.map (fun p => if p.1 == k then (k, v) else p)
  else d ++ [(k, v)]

/-- `d[k]` as an option: `none` models a `KeyError`, `some w` the stored
value (itself `None` or a name). -/
def dictGet? (d : AxisDict) (k : String) : Option (Option String) :=
  (d.find? (fun p => p.1 == k)).map (·.2)

/-- Lines 28–38: the `axis` attribute branch.  Note that `axis == "T"`
assigns to the key `time`, not `t`. -/
def axisAssign (d : AxisDict) (varName : String) (axisAttr : Option String) : AxisDict :=
  match axisAttr with
  | some "X" => dictSet d "x" (some varName)
  | some "Y" => dictSet d "y" (some varName)
  | some "T" => dictSet d "time" (some varName)
  | some "Z" => dictSet d "z" (some varName)
  | _ => d

/-- Lines 41–48: case-insensitive name fallback for roles whose current
value is `None`; the `t` role is assigned under the key `t`. -/
def nameFallback (d : AxisDict) (varName : String) : AxisDict :=
  let d := if dictGet? d "x" = some none ∧ pyLower varName ∈ ["lon", "longitude", "x"]
    then dictSet d "x" (some varName) else d
  let d := if dictGet? d "y" = some none ∧ pyLower varName ∈ ["lat", "latitude", "y"]
    then dictSet d "y" (some varName) else d
  let d := if dictGet? d "t" = some none ∧ pyLower varName ∈ ["time"]
    then dictSet d "t" (some varName) else d
  let d := if dictGet? d "z" = some none ∧ pyLower varName ∈ ["z", "depth", "level"]
    then dictSet d "z" (some varName) else d
  d

/-- `get_ds_dimensions(dataset)` (`utils/dimensions.py`, lines 2–57).
`variables` lists the dataset's variables in iteration order as
`(name, axis attribute)`; `dsDimNames` lists the dataset's dimension
names.  The final test reads `dimensions["time"]`, which raises
`KeyError` whenever no variable carried `axis == "T"` (the keys `x` and
`y` always exist); when all three reads succeed and none is `None`, the
`None`-valued keys are dropped and the dict is returned. -/
def get_ds_dimensions (vars : List (String × Option String))
    (dsDimNames : List String) : Except String (List (String × String)) :=
  let d0 : AxisDict := [("x", none), ("y", none), ("t", none), ("z", none), ("member", none)]
  let d := vars.foldl (fun d v => nameFallback (axisAssign d v.1 v.2) v.1) d0
  let d := if dsDimNames.contains "member" then dictSet d "member" (some "member") else d
  match dictGet? d "x", dictGet? d "y", dictGet? d "time" with
  | some x, some y, some t =>
    if x = none ∨ y = none ∨ t = none then
      .error "ValueError: Could not determine longitude, latitude, or time dimensions."
    else .ok (d.filterMap (fun p => p.2.map (fun w => (p.1, w))))
  | _, _, _ => .error "KeyError: time"

/-! ## Definitions: concrete inputs used by counterexamples and witnesses -/

/-- A 1-dimensional length-2 rational array, all zeros. -/
def arrTwo : Arr ℚ := { shape := [2], val := fun _ => 0 }

/-- A 1-dimensional length-2 constant real array (standard deviation 0). -/
def aConst : Arr ℝ := { shape := [2], val := fun _ => 1 }

/-- A 1-dimensional length-2 constant rational array. -/
def arrConstQ : Arr ℚ := { shape := [2], val := fun _ => 3 }

/-- Fill-value counts `[5, 5, 5, 7, 7, 3]` with 1-dimensional coordinates. -/
def fillCountsRuns : List (List Nat × Int) :=
  [([0], 5), ([1], 5), ([2], 5), ([3], 7), ([4], 7), ([5], 3)]

/-- Fill-value counts per day `[2, 2, 2, 2, 5]`. -/
def fillCountsTail : List (List Nat × Int) :=
  [([0], 2), ([1], 2), ([2], 2), ([3], 2), ([4], 5)]

/-- A dataset whose axes resolve purely by name: variables `lon`,
`lat`, `time`, none carrying an `axis` attribute. -/
def lonLatTimeVars : List (String × Option String) :=
  [("lon", none), ("lat", none), ("time", none)]

/-! ## Theorems: the array model -/

/-- `(ndindex sh).length` is the product of the shape. -/
theorem length_ndindex (sh : List Nat) : (ndindex sh).length = sh.prod := by
  induction sh with
  | nil => rfl
  | cons n rest ih =>
    simp [ndindex, List.length_flatMap, Function.comp_def, ih, List.map_const',
      List.sum_replicate, smul_eq_mul, Nat.mul_comm]

/-- Membership in `ndindex`: every coordinate is within the shape. -/
theorem mem_ndindex {sh : List Nat} {ix : List Nat} (h : ix ∈ ndindex sh) :
    List.Forall₂ (· < ·) ix sh := by
  induction sh generalizing ix with
  | nil =>
    simp [ndindex] at h
    subst h; constructor
  | cons n rest ih =>
    simp only [ndindex, List.mem_flatMap, List.mem_map, List.mem_range] at h
    obtain ⟨i, hi, tail, htail, rfl⟩ := h
    exact List.Forall₂.cons hi (ih htail)

/-- The first index tuple of a shape with no zero-size dimension is the
all-zero tuple. -/
theorem ndindex_head {sh : List Nat} (h : sh.prod ≠ 0) :
    (ndindex sh).headD [] = List.replicate sh.length 0 := by
  induction sh with
  | nil => rfl
  | cons n rest ih =>
    simp only [List.prod_cons, ne_eq, Nat.mul_eq_zero, not_or] at h
    obtain ⟨hn, hrest⟩ := h
    obtain ⟨m, rfl⟩ := Nat.exists_eq_succ_of_ne_zero hn
    have hne : ndindex rest ≠ [] := by
      intro hnil
      have := length_ndindex rest
      rw [hnil] at this
      exact hrest this.symm
    obtain ⟨y, ys, hys⟩ := List.exists_cons_of_ne_nil hne
    simp [ndindex, List.range_succ_eq_map, hys, List.replicate_succ]
    have : y = List.replicate rest.length 0 := by
      have := ih hrest
      rw [hys] at this
      simpa using this
    simp [this]

/-! ## Theorems: slicing -/

theorem mergeIdx_replicate_none (n : Nat) (ix : List Nat) :
    mergeIdx (List.replicate n none) ix = ix := by
  induction n generalizing ix with
  | zero => rfl
  | succ m ih =>
    cases ix with
    | nil => simp [List.replicate_succ, mergeIdx, ih]
    | cons j tl => simp [List.replicate_succ, mergeIdx, ih]

theorem sliceShape_replicate_none (sh : List Nat) :
    sliceShape (List.replicate sh.length none) sh = sh := by
  induction sh with
  | nil => rfl
  | cons d tl ih => simp [List.replicate_succ, sliceShape, ih]

/-- Slicing with `slice(None)` in every position is the identity. -/
theorem sliceArr_replicate_none {α : Type} (a : Arr α) :
    sliceArr a (List.replicate a.ndim none) = a := by
  cases a with
  | mk sh v =>
    simp only [sliceArr, Arr.ndim]
    congr 1
    · exact sliceShape_replicate_none sh
    · funext ix
      rw [mergeIdx_replicate_none]

theorem selOk_replicate_none (sh : List Nat) :
    selOk (List.replicate sh.length none) sh = true := by
  induction sh with
  | nil => rfl
  | cons d tl ih => simpa [List.replicate_succ, selOk] using ih

/-! ## Theorems: the scan never hits an `IndexError` on well-resolved
dimensions -/

theorem selOk_of_bounds (sel : List (Option Nat)) (sh : List Nat)
    (hlen : sel.length = sh.length)
    (hbnd : ∀ (k v d : Nat), sel[k]? = some (some v) → sh[k]? = some d → v < d) :
    selOk sel sh = true := by
  induction sel generalizing sh with
  | nil =>
    cases sh with
    | nil => rfl
    | cons d tl => simp at hlen
  | cons o sel ih =>
    cases sh with
    | nil => simp at hlen
    | cons d tl =>
      have htl : selOk sel tl = true := by
        apply ih
        · simpa using hlen
        · intro k v e h1 h2
          exact hbnd (k + 1) v e (by simpa using h1) (by simpa using h2)
      cases o with
      | none => simpa [selOk] using htl
      | some i =>
        have : i < d := hbnd 0 i d (by simp) (by simp)
        simp [selOk, this, htl]

theorem shapesOf_ok_forall₂ {α : Type} (a : Arr α) (idxs shps : List Nat)
    (h : shapesOf a idxs = .ok shps) :
    List.Forall₂ (fun i d => a.shape[i]? = some d) idxs shps := by
  induction idxs generalizing shps with
  | nil =>
    unfold shapesOf at h
    injection h with h
    subst h
    constructor
  | cons i rest ih =>
    unfold shapesOf at h
    cases hs : a.shape[i]? with
    | none => rw [hs] at h; cases h
    | some d =>
      rw [hs] at h
      cases hr : shapesOf a rest with
      | error e => rw [hr] at h; cases h
      | ok tl =>
        rw [hr] at h
        injection h with h
        subst h
        exact List.Forall₂.cons hs (ih tl hr)

theorem length_foldl_set (l : List (Nat × Nat)) (acc : List (Option Nat)) :
    (l.foldl (fun sel p => sel.set p.1 (some p.2)) acc).length = acc.length := by
  induction l generalizing acc with
  | nil => rfl
  | cons p tl ih => simpa [List.length_set] using ih (acc.set p.1 (some p.2))

theorem length_buildFullSlice (n : Nat) (idxs ixs : List Nat) :
    (buildFullSlice n idxs ixs).length = n := by
  unfold buildFullSlice
  rw [length_foldl_set, List.length_replicate]

theorem foldl_set_getElem?_mem (l : List (Nat × Nat)) (acc : List (Option Nat))
    (k v : Nat)
    (h : (l.foldl (fun sel p => sel.set p.1 (some p.2)) acc)[k]? = some (some v)) :
    (k, v) ∈ l ∨ acc[k]? = some (some v) := by
  induction l generalizing acc with
  | nil => exact Or.inr h
  | cons p tl ih =>
    rcases ih (acc.set p.1 (some p.2)) h with hmem | hacc
    · exact Or.inl (List.mem_cons_of_mem _ hmem)
    · rw [List.getElem?_set] at hacc
      by_cases hk : p.1 = k
      · rw [if_pos hk] at hacc
        by_cases hlt : p.1 < acc.length
        · rw [if_pos hlt] at hacc
          injection hacc with hacc
          injection hacc with hacc
          exact Or.inl (by rw [← hk, ← hacc]; exact List.mem_cons_self _ _)
        · rw [if_neg hlt] at hacc
          cases hacc
      · rw [if_neg hk] at hacc
        exact Or.inr hacc

theorem buildFullSlice_getElem?_mem (n : Nat) (idxs ixs : List Nat) (k v : Nat)
    (h : (buildFullSlice n idxs ixs)[k]? = some (some v)) :
    (k, v) ∈ idxs.zip ixs := by
  rcases foldl_set_getElem?_mem (idxs.zip ixs) (List.replicate n none) k v h with hm | hacc
  · exact hm
  · rcases List.getElem?_replicate.symm.trans hacc |>.symm with h'
    split at h'
    · cases h'
    · cases h'

/-- With successfully resolved dimension positions and shapes, every
step of the scan slices without `IndexError`. -/
theorem selOk_buildFullSlice {α : Type} (a : Arr α) (idxs shps : List Nat)
    (hs : shapesOf a idxs = .ok shps) {ixs : List Nat} (hix : ixs ∈ ndindex shps) :
    selOk (buildFullSlice a.ndim idxs ixs) a.shape = true := by
  have f1 := shapesOf_ok_forall₂ a idxs shps hs
  have f2 := mem_ndindex hix
  apply selOk_of_bounds
  · rw [length_buildFullSlice]; rfl
  · intro k v d h1 h2
    have hz := buildFullSlice_getElem?_mem a.ndim idxs ixs k v h1
    have hlen1 : idxs.length = shps.length := f1.length_eq
    have hlen2 : ixs.length = shps.length := f2.length_eq
    have hzip : List.Forall₂ (fun i w => ∃ e, a.shape[i]? = some e ∧ w < e) idxs ixs := by
      rw [List.forall₂_iff_get]
      refine ⟨hlen1.trans hlen2.symm, ?_⟩
      intro i hi1 hi2
      have p1 := (List.forall₂_iff_get.mp f1).2 i hi1 (hlen1 ▸ hi1)
      have p2 := (List.forall₂_iff_get.mp f2).2 i (hlen2 ▸ hlen1 ▸ hi1) (hlen1 ▸ hi1)
      exact ⟨shps.get ⟨i, hlen1 ▸ hi1⟩, p1, p2⟩
    obtain ⟨e, he, hv⟩ := List.forall₂_zip hzip hz
    rw [he] at h2
    injection h2 with h2
    exact h2 ▸ hv

/-- C10: with an empty `check_dims` list the inner scan performs exactly
one iteration — `np.ndindex()` yields the single empty tuple — whose
selection tuple is `slice(None)` in every position, so the check
function is applied exactly once, to the entire data array, and the
inner-index part of the step is the empty tuple `[]`. -/
theorem check_variable_conditions_empty_dims {π : Type} (varDimNames : List String)
    (data : Arr ℚ) (checkFunc : Arr ℚ → Option π → CheckOutput)
    (parameters : Option π) (combo : Option (List Nat)) :
    check_variable_conditions varDimNames data [] checkFunc parameters combo
      = normalizeOutput (checkFunc data parameters) [] combo := by
  have h1 : selOk (List.replicate data.ndim none) data.shape = true := by
    simpa [Arr.ndim] using selOk_replicate_none data.shape
  have h2 : buildFullSlice data.ndim [] [] = List.replicate data.ndim none := rfl
  simp only [check_variable_conditions, resolveDims, shapesOf, ndindex, scanSteps, scanStep,
    h2, h1, if_true, sliceArr_replicate_none]
  cases normalizeOutput (checkFunc data parameters) [] combo with
  | error e => rfl
  | ok rs => simp

theorem scanStep_eq_normalize {π : Type} (data : Arr ℚ) (idxs shps : List Nat)
    (checkFunc : Arr ℚ → Option π → CheckOutput) (parameters : Option π)
    (combo : Option (List Nat)) (hs : shapesOf data idxs = .ok shps)
    {ixs : List Nat} (hix : ixs ∈ ndindex shps) :
    scanStep data idxs checkFunc parameters combo ixs
      = normalizeOutput
          (checkFunc (sliceArr data (buildFullSlice data.ndim idxs ixs)) parameters)
          ixs combo := by
  have h := selOk_buildFullSlice data idxs shps hs hix
  simp [scanStep, h]

theorem scanSteps_ok_of_steps {π : Type} (data : Arr ℚ) (idxs : List Nat)
    (checkFunc : Arr ℚ → Option π → CheckOutput) (parameters : Option π)
    (combo : Option (List Nat)) (l : List (List Nat))
    (g : List Nat → List ScanRecord)
    (h : ∀ ixs ∈ l, scanStep data idxs checkFunc parameters combo ixs = .ok (g ixs)) :
    scanSteps data idxs checkFunc parameters combo l = .ok (l.flatMap g) := by
  induction l with
  | nil => rfl
  | cons x tl ih =>
    have hx := h x (List.mem_cons_self x tl)
    have htl := ih (fun ixs hm => h ixs (List.mem_cons_of_mem _ hm))
    simp [scanSteps, hx, htl]

/-- C3 (amended): a check function whose results match none of the
three dispatched shapes — neither `bool`, nor boolean mask, nor an
`int`/`np.integer` scalar — is *silently ignored* by the scan: nothing
is recorded for any step and no exception is raised (the `isinstance`
chain of `utils/data.py`, lines 73–103, has no `else` branch). -/
theorem check_variable_conditions_unsupported_ignored {π : Type}
    (varDimNames : List String) (data : Arr ℚ) (checkDims : List String)
    (idxs shps : List Nat) (checkFunc : Arr ℚ → Option π → CheckOutput)
    (parameters : Option π) (combo : Option (List Nat))
    (h1 : resolveDims varDimNames checkDims = .ok idxs)
    (h2 : shapesOf data idxs = .ok shps)
    (hf : ∀ s q, (checkFunc s q).result = PyResult.pyother) :
    check_variable_conditions varDimNames data checkDims checkFunc parameters combo
      = .ok [] := by
  simp only [check_variable_conditions, h1, h2]
  rw [scanSteps_ok_of_steps data idxs checkFunc parameters combo (ndindex shps)
    (fun _ => [])]
  · simp
  · intro ixs hix
    rw [scanStep_eq_normalize data idxs shps checkFunc parameters combo h2 hix]
    unfold normalizeOutput
    rw [hf]

/-- C3 witness: a concrete scan — dimension `d` of length 2, a check
function returning the string-like unsupported value — runs both steps,
records nothing, and raises nothing. -/
theorem check_variable_conditions_unsupported_ignored_witness :
    check_variable_conditions ["d"] arrTwo ["d"]
      (fun _ _ => ⟨PyResult.pyother, none, none⟩) (none : Option Unit) none
      = .ok [] := by
  apply check_variable_conditions_unsupported_ignored ["d"] arrTwo ["d"] [0] [2]
  · rfl
  · rfl
  · intro s q
    rfl

/-- C3 counterexample: the claim says an unsupported return shape makes
the scan raise; on this concrete scan the check function returns an
unsupported value on every step, yet the scan returns normally — an
`Except.ok` (which is no `Except.error`) — with an empty record list,
so the unsupported results were silently ignored, not raised. -/
theorem check_variable_conditions_unsupported_no_raise :
    check_variable_conditions ["d"] arrTwo ["d"]
      (fun _ _ => ⟨PyResult.pyother, some arrTwo, none⟩) (none : Option Unit) none
      = .ok [] := by
  rfl

/-- C4 (amended): the numeric-scalar branch of the scan records integer
scalars only.  For a check function returning an `int`/`np.integer`
scalar the scan records, for each index combination, the tuple
`(combo + indices, float(value))` — `indices` alone when no outer combo
is supplied; a check function returning a `float` scalar matches no
branch of the dispatch and is silently ignored, recording nothing. -/
theorem check_variable_conditions_scalar_branch {π : Type}
    (varDimNames : List String) (data : Arr ℚ) (checkDims : List String)
    (idxs shps : List Nat) (f g : Arr ℚ → Option π → CheckOutput)
    (parameters : Option π) (combo : Option (List Nat)) (n : Int)
    (h1 : resolveDims varDimNames checkDims = .ok idxs)
    (h2 : shapesOf data idxs = .ok shps)
    (hf : ∀ s q, (f s q).result = PyResult.pyint n)
    (hg : ∀ s q, ∃ x, (g s q).result = PyResult.pyfloat x) :
    check_variable_conditions varDimNames data checkDims f parameters combo
      = .ok ((ndindex shps).map
          (fun ixs => ScanRecord.scalar (applyCombo combo ixs) (n : ℚ)))
    ∧ check_variable_conditions varDimNames data checkDims g parameters combo
      = .ok [] := by
  constructor
  · simp only [check_variable_conditions, h1, h2]
    rw [scanSteps_ok_of_steps data idxs f parameters combo (ndindex shps)
      (fun ixs => [ScanRecord.scalar (applyCombo combo ixs) (n : ℚ)])]
    · congr 1
      induction ndindex shps with
      | nil => rfl
      | cons x tl ih => simp_all
    · intro ixs hix
      rw [scanStep_eq_normalize data idxs shps f parameters combo h2 hix]
      unfold normalizeOutput
      rw [hf]
  · simp only [check_variable_conditions, h1, h2]
    rw [scanSteps_ok_of_steps data idxs g parameters combo (ndindex shps) (fun _ => [])]
    · simp
    · intro ixs hix
      rw [scanStep_eq_normalize data idxs shps g parameters combo h2 hix]
      obtain ⟨x, hx⟩ :=
        hg (sliceArr data (buildFullSlice data.ndim idxs ixs)) parameters
      unfold normalizeOutput
      rw [hx]

/-- C4 witness: on dimension `d` of length 2 with outer combo `[7]`, an
integer-returning check function yields one `(combo + indices, value)`
record per index combination, while a float-returning one yields none. -/
theorem check_variable_conditions_scalar_branch_witness :
    check_variable_conditions ["d"] arrTwo ["d"]
      (fun _ _ => ⟨PyResult.pyint 4, none, none⟩) (none : Option Unit) (some [7])
      = .ok [ScanRecord.scalar [7, 0] 4, ScanRecord.scalar [7, 1] 4]
    ∧ check_variable_conditions ["d"] arrTwo ["d"]
      (fun _ _ => ⟨PyResult.pyfloat (1 / 2), none, none⟩) (none : Option Unit) (some [7])
      = .ok [] := by
  have h := check_variable_conditions_scalar_branch ["d"] arrTwo ["d"] [0] [2]
    (fun _ _ => ⟨PyResult.pyint 4, none, none⟩)
    (fun _ _ => ⟨PyResult.pyfloat (1 / 2), none, none⟩)
    (none : Option Unit) (some [7]) 4 rfl rfl (fun _ _ => rfl)
    (fun _ _ => ⟨1 / 2, rfl⟩)
  exact ⟨h.1.trans (by rfl), h.2⟩

/-- C4 counterexample: the claim says an `int` *or `float`* scalar is
recorded; on this concrete scan the check function returns the float
scalar `0.5` at both index combinations, yet the scan records nothing
at all (the dispatch only matches `isinstance(result, (int,
np.integer))`, which a Python `float` is not). -/
theorem check_variable_conditions_float_scalar_dropped :
    check_variable_conditions ["d"] arrTwo ["d"]
      (fun _ _ => ⟨PyResult.pyfloat (1 / 2), none, none⟩) (none : Option Unit) none
      = .ok [] := by
  rfl

/-! ## Theorems: `check_all_constant` -/

/-- C7: `check_all_constant` returns `true` precisely when every
element of the slice equals its first element: scalar slices (shape
`[]`, the numpy scalars `np.isscalar` accepts) are trivially `true`,
1-element slices are trivially `true`, empty slices are defined as
`false`, and on every non-empty slice the result is `true` iff every
element equals the first element of the flattened slice. -/
theorem check_all_constant_spec (a : Arr ℚ) :
    (a.shape = [] → check_all_constant a = true)
    ∧ (arrSize a = 0 → check_all_constant a = false)
    ∧ (arrSize a = 1 → check_all_constant a = true)
    ∧ (arrSize a ≠ 0 →
        (check_all_constant a = true ↔ ∀ q ∈ elems a, q = (elems a).headD 0)) := by
  refine ⟨?_, ?_, ?_, ?_⟩
  · intro h
    simp [check_all_constant, h]
  · intro h
    have hsh : a.shape ≠ [] := by
      intro hc
      rw [arrSize, hc] at h
      simp at h
    simp [check_all_constant, hsh, h]
  · intro h
    by_cases hsh : a.shape = []
    · simp [check_all_constant, hsh]
    · have hlen : (elems a).length = 1 := by
        rw [elems, List.length_map, length_ndindex]
        exact h
      obtain ⟨e, he⟩ := List.length_eq_one.mp hlen
      simp [check_all_constant, hsh, h, he]
  · intro h
    by_cases hsh : a.shape = []
    · constructor
      · intro _ q hq
        rw [elems, hsh] at hq ⊢
        simp only [ndindex, List.map_cons, List.map_nil] at hq ⊢
        simpa using hq
      · intro _
        simp [check_all_constant, hsh]
    · simp only [check_all_constant, if_neg hsh, if_neg h]
      simp [List.all_eq_true, beq_iff_eq]

/-- C7 witness: the constant length-2 slice `[3, 3]` is non-empty, the
equivalence of `check_all_constant_spec` applies to it, and the check
indeed returns `true` on it. -/
theorem check_all_constant_spec_witness :
    (arrSize arrConstQ ≠ 0
      ∧ (check_all_constant arrConstQ = true
          ↔ ∀ q ∈ elems arrConstQ, q = (elems arrConstQ).headD 0))
    ∧ check_all_constant arrConstQ = true := by
  refine ⟨⟨by decide, (check_all_constant_spec arrConstQ).2.2.2 (by decide)⟩, by decide⟩

/-! ## Theorems: the Z-score detector -/

theorem npStd_aConst : npStd aConst = 0 := by
  have hvar : npVar aConst = 0 := by
    simp [npVar, arrSum, elems, aConst, ndindex, npMean, arrSize, List.range_succ]
  rw [npStd, hvar, Real.sqrt_zero]

/-- C8 counterexample: the claim quantifies over *every* threshold
value; on the constant slice `[1, 1]` — whose standard deviation is 0 —
the threshold `-1` flags the cell `[0]` as an outlier, because
`np.abs(0) > -1` holds.  So "flags zero outliers regardless of the
threshold" fails for negative thresholds. -/
theorem zscore_negative_threshold_flags :
    npStd aConst = 0 ∧ (is_outlier (calculate_zscore aConst) (-1)).val [0] := by
  refine ⟨npStd_aConst, ?_⟩
  have hz : calculate_zscore aConst = { shape := aConst.shape, val := fun _ => 0 } := by
    simp [calculate_zscore, npStd_aConst]
  rw [hz]
  show |(0:ℝ)| > -1
  norm_num

/-- C8 (amended): for every slice whose standard deviation is zero and
every *nonnegative* threshold, `calculate_zscore` returns the all-zero
score array (the `std == 0` guard) and the outlier mask produced by
`is_outlier` contains no true cell. -/
theorem calculate_zscore_std_zero {a : Arr ℝ} {t : ℝ}
    (h : npStd a = 0) (ht : 0 ≤ t) :
    (∀ ix, (calculate_zscore a).val ix = 0)
    ∧ ∀ ix, ¬ (is_outlier (calculate_zscore a) t).val ix := by
  have hz : calculate_zscore a = { shape := a.shape, val := fun _ => 0 } := by
    simp [calculate_zscore, h]
  constructor
  · intro ix
    rw [hz]
  · intro ix hx
    rw [hz] at hx
    have h0 : |(0:ℝ)| > t := hx
    rw [abs_zero] at h0
    exact absurd h0 (not_lt.mpr ht)

/-- C8 witness: the constant slice `[1, 1]` has standard deviation 0;
with the default threshold 5 its Z-score at `[0]` is 0 and the cell
`[0]` is not flagged. -/
theorem calculate_zscore_std_zero_witness :
    npStd aConst = 0
    ∧ (calculate_zscore aConst).val [0] = 0
    ∧ ¬ (is_outlier (calculate_zscore aConst) 5).val [0] := by
  have h := calculate_zscore_std_zero npStd_aConst (by norm_num : (0:ℝ) ≤ 5)
  exact ⟨npStd_aConst, h.1 [0], h.2 [0]⟩

/-! ## Theorems: `detect_changes_in_values` -/

theorem getD_mem_of_lt {α : Type} (l : List α) (k : Nat) (d : α)
    (hk : k < l.length) : l.getD k d ∈ l := by
  rw [List.getD_eq_getElem?_getD, List.getElem?_eq_getElem hk]
  exact List.getElem_mem hk

theorem diffs_getD (values : List Int) (i : Nat) (hi : i < values.length - 1) :
    ((List.range (values.length - 1)).map
      (fun j => values.getD (j + 1) 0 - values.getD j 0)).getD i 0
    = values.getD (i + 1) 0 - values.getD i 0 := by
  rw [List.getD_eq_getElem?_getD, List.getElem?_map, List.getElem?_range hi]
  rfl

/-- The index list `np.nonzero(np.diff(values))[0] + 1` coincides with
the indices `i ≥ 1` whose value differs from the value at `i - 1`. -/
theorem change_indices_eq (values : List Int) :
    ((List.range (values.length - 1)).filter
        (fun i => ((List.range (values.length - 1)).map
          (fun j => values.getD (j + 1) 0 - values.getD j 0)).getD i 0 != 0)).map (· + 1)
      = (List.range values.length).filter
        (fun i => decide (1 ≤ i) && (values.getD i 0 != values.getD (i - 1) 0)) := by
  cases values with
  | nil => rfl
  | cons v vs =>
    have hlen : (v :: vs).length - 1 = vs.length := by simp
    rw [hlen, List.length_cons, List.range_succ_eq_map, List.filter_cons]
    have h0 : (decide (1 ≤ 0) && ((v :: vs).getD 0 0 != (v :: vs).getD (0 - 1) 0))
        = false := by simp
    rw [h0]
    simp only [Bool.false_eq_true, if_false]
    rw [List.filter_map]
    have hc : ∀ i ∈ List.range vs.length,
        (((List.range vs.length).map
            (fun j => (v :: vs).getD (j + 1) 0 - (v :: vs).getD j 0)).getD i 0 != 0)
          = ((fun k => decide (1 ≤ k) && ((v :: vs).getD k 0 != (v :: vs).getD (k - 1) 0))
              ∘ Nat.succ) i := by
      intro i hi
      rw [List.mem_range] at hi
      have hdg := diffs_getD (v :: vs) i (by simpa using hi)
      rw [hlen] at hdg
      rw [hdg, Function.comp_apply, Bool.eq_iff_iff]
      simp [bne_iff_ne, sub_ne_zero, Nat.le_add_left, Nat.add_sub_cancel]
    rw [List.filter_congr hc]

/-- With all values equal, no difference is non-zero and the first
value equals the second. -/
theorem detect_changes_in_values_all_eq (cv : List (List Nat × Int))
    (h : ∀ p ∈ cv, ∀ q ∈ cv, p.2 = q.2) : detect_changes_in_values cv = [] := by
  cases hcv : cv with
  | nil => rfl
  | cons c cs =>
    have hval : ∀ x ∈ cv.map (·.2), ∀ y ∈ cv.map (·.2), x = y := by
      intro x hx y hy
      obtain ⟨p, hp, rfl⟩ := List.mem_map.mp hx
      obtain ⟨q, hq, rfl⟩ := List.mem_map.mp hy
      exact h p hp q hq
    have hgetD : ∀ (i j : Nat), i < cv.length → j < cv.length →
        (cv.map (·.2)).getD i 0 = (cv.map (·.2)).getD j 0 := by
      intro i j hi hj
      have hlen : (cv.map (·.2)).length = cv.length := List.length_map _ _
      exact hval _ (getD_mem_of_lt _ i 0 (by rw [hlen]; exact hi))
        _ (getD_mem_of_lt _ j 0 (by rw [hlen]; exact hj))
    rw [← hcv]
    have hiE : cv.isEmpty = false := by rw [hcv]; rfl
    unfold detect_changes_in_values
    rw [hiE]
    simp only [Bool.false_eq_true, if_false, List.length_map, List.length_range]
    have hfilter : (List.range (cv.length - 1)).filter
        (fun i => ((List.range (cv.length - 1)).map
          (fun j => (cv.map (·.2)).getD (j + 1) 0 - (cv.map (·.2)).getD j 0)).getD i 0 != 0)
        = [] := by
      rw [List.filter_eq_nil_iff]
      intro i hi
      rw [List.mem_range] at hi
      have hd := diffs_getD (cv.map (·.2)) i (by rw [List.length_map]; exact hi)
      rw [List.length_map] at hd
      rw [hd, hgetD (i + 1) i (by omega) (by omega)]
      simp
    rw [hfilter]
    have hcond : ¬ (1 < cv.length
        ∧ (cv.map (·.2)).getD 0 0 ≠ (cv.map (·.2)).getD 1 0) := by
      rintro ⟨h1, h2⟩
      exact h2 (hgetD 0 1 (by omega) (by omega))
    rw [if_neg hcond]
    rfl

/-- C6: `detect_changes_in_values` is the empty list on an all-equal
count sequence, and on every sequence returns exactly the pairs at the
first index of each run-change: index 0 when its count differs from the
count at index 1, plus every index `i ≥ 1` whose count differs from the
count at `i - 1` (the refinement `spec_change_pairs`).  In particular
counts `[5, 5, 5, 7, 7, 3]` yield detections exactly at indices 3 and
5, and counts `[2, 2, 2, 2, 5]` only at the last index. -/
theorem detect_changes_in_values_spec :
    (∀ cv, detect_changes_in_values cv = spec_change_pairs cv)
    ∧ (∀ cv : List (List Nat × Int), (∀ p ∈ cv, ∀ q ∈ cv, p.2 = q.2) →
        detect_changes_in_values cv = [])
    ∧ detect_changes_in_values fillCountsRuns = [([3], 7), ([5], 3)]
    ∧ detect_changes_in_values fillCountsTail = [([4], 5)] := by
  refine ⟨?_, detect_changes_in_values_all_eq, by decide, by decide⟩
  intro cv
  cases hcv : cv with
  | nil => rfl
  | cons c cs =>
    rw [← hcv]
    have hiE : cv.isEmpty = false := by rw [hcv]; rfl
    unfold detect_changes_in_values spec_change_pairs
    rw [hiE]
    simp only [Bool.false_eq_true, if_false, List.length_map, List.length_range]
    have hidx := change_indices_eq (cv.map (·.2))
    have hlen : (cv.map (·.2)).length = cv.length := List.length_map _ _
    rw [hlen] at hidx
    rw [hidx]
    by_cases hcond : 1 < cv.length
      ∧ (cv.map (·.2)).getD 0 0 ≠ (cv.map (·.2)).getD 1 0
    · rw [if_pos hcond, if_pos hcond]
      rfl
    · rw [if_neg hcond, if_neg hcond]
      rfl

/-- C6 witness: the all-equal hypothesis of the constant-sequence part,
discharged on the concrete constant sequence `[2, 2, 2]`. -/
theorem detect_changes_in_values_spec_witness :
    detect_changes_in_values [([0], 2), ([1], 2), ([2], 2)] = [] := by
  apply detect_changes_in_values_spec.2.1
  decide

/-! ## Theorems: `check_units` -/

/-- C9: `check_units` leaves the thresholds unchanged when the units
agree, and applies the fixed conversion set to the threshold pair
whenever the variable's declared unit differs from the table's unit in
one of the five recognised ways: °C↔K by a −273.15 offset on both
thresholds, percent↔fraction by ×100, g/kg↔fraction by ×1000, mm↔m by
×1000 and J·m⁻²↔W·m⁻² by ×86400; the temperature offset is exactly
invertible, so adding 273.15 back to a converted threshold pair yields
the original values. -/
theorem check_units_conversions (tv : Thresholds) (u : String) :
    (u = tv.unit → check_units u tv = tv)
    ∧ (u ∈ celsiusUnits → tv.unit ∈ kelvinUnits →
        check_units u tv = ⟨tv.min - 273.15, tv.max - 273.15, "Celsius"⟩
        ∧ (check_units u tv).min + 273.15 = tv.min
        ∧ (check_units u tv).max + 273.15 = tv.max)
    ∧ (u ∈ percentUnits → tv.unit ∈ fractionUnits →
        check_units u tv = ⟨tv.min * 100, tv.max * 100, "percent"⟩)
    ∧ (u ∈ ["gr kg-1"] → tv.unit ∈ fractionUnits →
        check_units u tv = ⟨tv.min * 1000, tv.max * 1000, "gr kg-1"⟩)
    ∧ (u ∈ ["mm", "millimeter"] → tv.unit ∈ ["m"] →
        check_units u tv = ⟨tv.min * 1000, tv.max * 1000, "mm"⟩)
    ∧ (u ∈ ["J m**-2"] → tv.unit ∈ ["W m**-2"] →
        check_units u tv = ⟨tv.min * 86400, tv.max * 86400, "J m**-2 day**-1"⟩) := by
  have disjCK : ∀ x ∈ celsiusUnits, x ∉ kelvinUnits := by decide
  have disjPC : ∀ x ∈ percentUnits, x ∉ celsiusUnits := by decide
  have disjPF : ∀ x ∈ percentUnits, x ∉ fractionUnits := by decide
  have disjGC : ∀ x ∈ ["gr kg-1"], x ∉ celsiusUnits := by decide
  have disjGP : ∀ x ∈ ["gr kg-1"], x ∉ percentUnits := by decide
  have disjGF : ∀ x ∈ ["gr kg-1"], x ∉ fractionUnits := by decide
  have disjMC : ∀ x ∈ ["mm", "millimeter"], x ∉ celsiusUnits := by decide
  have disjMP : ∀ x ∈ ["mm", "millimeter"], x ∉ percentUnits := by decide
  have disjMG : ∀ x ∈ ["mm", "millimeter"], x ∉ ["gr kg-1"] := by decide
  have disjMM : ∀ x ∈ ["mm", "millimeter"], x ∉ (["m"] : List String) := by decide
  have disjJC : ∀ x ∈ ["J m**-2"], x ∉ celsiusUnits := by decide
  have disjJP : ∀ x ∈ ["J m**-2"], x ∉ percentUnits := by decide
  have disjJG : ∀ x ∈ ["J m**-2"], x ∉ ["gr kg-1"] := by decide
  have disjJM : ∀ x ∈ ["J m**-2"], x ∉ ["mm", "millimeter"] := by decide
  have disjJW : ∀ x ∈ ["J m**-2"], x ∉ (["W m**-2"] : List String) := by decide
  refine ⟨?_, ?_, ?_, ?_, ?_, ?_⟩
  · intro he
    simp [check_units, he]
  · intro hu hk
    have hne : u ≠ tv.unit := fun he => disjCK u hu (he ▸ hk)
    have h : check_units u tv = ⟨tv.min - 273.15, tv.max - 273.15, "Celsius"⟩ := by
      rw [check_units, if_pos hne, if_pos ⟨hu, hk⟩]
    refine ⟨h, ?_, ?_⟩
    · rw [h]; ring
    · rw [h]; ring
  · intro hu hk
    have hne : u ≠ tv.unit := fun he => disjPF u hu (he ▸ hk)
    rw [check_units, if_pos hne,
      if_neg (fun hc => disjPC u hu hc.1), if_pos ⟨hu, hk⟩]
  · intro hu hk
    have hne : u ≠ tv.unit := fun he => disjGF u hu (he ▸ hk)
    rw [check_units, if_pos hne,
      if_neg (fun hc => disjGC u hu hc.1),
      if_neg (fun hc => disjGP u hu hc.1), if_pos ⟨hu, hk⟩]
  · intro hu hk
    have hne : u ≠ tv.unit := fun he => disjMM u hu (he ▸ hk)
    rw [check_units, if_pos hne,
      if_neg (fun hc => disjMC u hu hc.1),
      if_neg (fun hc => disjMP u hu hc.1),
      if_neg (fun hc => disjMG u hu hc.1), if_pos ⟨hu, hk⟩]
  · intro hu hk
    have hne : u ≠ tv.unit := fun he => disjJW u hu (he ▸ hk)
    rw [check_units, if_pos hne,
      if_neg (fun hc => disjJC u hu hc.1),
      if_neg (fun hc => disjJP u hu hc.1),
      if_neg (fun hc => disjJG u hu hc.1),
      if_neg (fun hc => disjJM u hu hc.1), if_pos ⟨hu, hk⟩]
    norm_num

/-- C9 witness: a variable in `degC` against the table entry
`{min 0, max 100, unit K}`: the thresholds are shifted by −273.15 and
adding 273.15 back recovers the original pair. -/
theorem check_units_conversions_witness :
    check_units "degC" (⟨0, 100, "K"⟩ : Thresholds)
      = ⟨0 - 273.15, 100 - 273.15, "Celsius"⟩
    ∧ (check_units "degC" (⟨0, 100, "K"⟩ : Thresholds)).min + 273.15 = 0
    ∧ (check_units "degC" (⟨0, 100, "K"⟩ : Thresholds)).max + 273.15 = 100 := by
  have h := (check_units_conversions (⟨0, 100, "K"⟩ : Thresholds) "degC").2.1
    (by decide) (by decide)
  exact ⟨h.1, h.2.1, h.2.2⟩

/-! ## Theorems: `get_ds_dimensions` -/

/-- C1: evaluation at the failing dataset.  In the dataset with
variables `lon`, `lat`, `time` (no `axis` attributes) all three of the
`x`, `y`, `t` roles resolve through the name fallback — `t` is stored
under the key `t` — yet the function does not return the axis map: the
final test reads `dimensions["time"]`, a key only the `axis == "T"`
branch ever creates, so the call raises `KeyError` instead of returning
(and instead of the descriptive `ValueError` its own error path would
produce). -/
theorem get_ds_dimensions_keyerror_time :
    get_ds_dimensions lonLatTimeVars [] = .error "KeyError: time" := by
  decide

/-! ## Theorems: `load_value_to_check` -/

/-- C5: evaluation at the failing input.  With `parameter = "FillValue"`
and no `_FillValue` attribute on the variable, `load_value_to_check`
raises `ValueError` (line 72 of `check_fill_missing.py`); the call site
in `check_fillvalues_timeseries` (line 109) is outside every
`try` block, so the check raises instead of passing with an
informational message — the pass-with-message branch at lines 110–113
is unreachable for `FillValue` because `parameters_func["val"] is None`
implies the earlier raise.  By contrast the same situation with
`parameter = "MissingValue"` returns normally, which is what feeds the
intended informational pass. -/
theorem load_value_to_check_fillvalue_raises :
    load_value_to_check none none "FillValue" []
      = .error "ValueError: FillValue not found in the variable attributes."
    ∧ load_value_to_check none (some 5) "FillValue" []
      = .error "ValueError: FillValue not found in the variable attributes."
    ∧ load_value_to_check none none "MissingValue" []
      = .ok ((none, "MissingValue"), []) := by
  exact ⟨rfl, rfl, rfl⟩

/-! ## Theorems: the spatial-statistical-outlier result assembly -/

/-- C2: the result of `check_spatial_statistical_outliers` (on a scan
that completed without raising) passes exactly when the accumulated
anomaly list `flattened_min + flattened_max` is empty — an empty list
leaves the fresh context untouched, a vacuous 0/0 pass — and on a
non-empty list the result is a failure (score 1 of 2: the
`add_failure` at line 170 is never fully compensated by the stray
`add_pass` at line 182) whose messages carry the count-bearing
`"Outliers detected: N points."` with `N` the anomaly count. -/
theorem check_spatial_statistical_outliers_pass_iff
    (fmin fmax : List (List Nat × ℚ × Option ℚ)) (parameter : String) :
    (passed (check_spatial_statistical_outliers fmin fmax parameter) = true
      ↔ fmin ++ fmax = [])
    ∧ (fmin ++ fmax ≠ [] →
        passed (check_spatial_statistical_outliers fmin fmax parameter) = false
        ∧ ("Outliers detected: " ++ toString (fmin ++ fmax).length ++ " points.")
            ∈ (check_spatial_statistical_outliers fmin fmax parameter).messages) := by
  by_cases hq : fmin ++ fmax = []
  · have hrep : check_spatial_statistical_outliers fmin fmax parameter
        = { score := 0, out_of := 0, messages := [], coordinates := [] } := by
      simp [check_spatial_statistical_outliers, extract_coordinates_from_indices, hq]
    refine ⟨?_, fun hne => absurd hq hne⟩
    rw [hrep]
    simp [passed, hq]
  · obtain ⟨c, cs, hfm⟩ := List.exists_cons_of_ne_nil hq
    have hie : ((fmin ++ fmax).map (·.1)).isEmpty = false := by
      rw [hfm]; rfl
    have hkey : passed (check_spatial_statistical_outliers fmin fmax parameter) = false
        ∧ ("Outliers detected: " ++ toString (fmin ++ fmax).length ++ " points.")
            ∈ (check_spatial_statistical_outliers fmin fmax parameter).messages := by
      simp only [check_spatial_statistical_outliers, extract_coordinates_from_indices,
        hie, Bool.not_false, if_true, List.length_map]
      refine ⟨?_, ?_⟩
      · simp only [passed, add_pass, add_failure]
        split <;> split <;> rfl
      · simp only [add_pass, add_failure]
        split <;> split <;> simp
    refine ⟨?_, fun _ => hkey⟩
    rw [hkey.1]
    simp [hq]

/-- C2 witness: one concrete anomaly in the minimum series (`fmax`
empty): the result fails and carries the count-bearing message for one
point. -/
theorem check_spatial_statistical_outliers_pass_iff_witness :
    passed (check_spatial_statistical_outliers [([0], 1, none)] [] "Z-Score") = false
    ∧ ("Outliers detected: " ++ toString
          ([(([0] : List Nat), (1 : ℚ), (none : Option ℚ))] ++ []).length ++ " points.")
        ∈ (check_spatial_statistical_outliers [([0], 1, none)] [] "Z-Score").messages := by
  exact (check_spatial_statistical_outliers_pass_iff [([0], 1, none)] [] "Z-Score").2
    (by simp)

end WcrpData
